import Mathlib

/-
Shallow embedding of kataras/httpcache (Go).
Times and durations are Int nanoseconds, mirroring Go's time.Time
(wall clock, no wrap modelled) and time.Duration (int64 nanoseconds).
Bodies are lists of byte values. The concurrent map of store.go is an
association list with Go map semantics (at most one binding per key,
maintained by insert/remove).
-/

namespace Httpcache

/-- Byte slices ([]byte) as lists of byte values. -/
abbrev Bytes := List Nat

/-- Entry from store.go: the cached response snapshot. -/
structure Entry where
  StatusCode : Int
  ContentType : String
  Body : Bytes
  Expires : Int
deriving DecidableEq, Repr

/-- The memoryStore's cache map (map[string]*Entry). -/
abbrev StoreMap := List (String × Entry)

/-- Map read: cache[key]. -/
def lookupEntry (key : String) : StoreMap → Option Entry
  | [] => none
  | (k, e) :: rest => if k = key then some e else lookupEntry key rest

/-- Map delete: delete(cache, key). -/
def removeEntry (key : String) : StoreMap → StoreMap
  | [] => []
  | (k, e) :: rest =>
      if k = key then removeEntry key rest else (k, e) :: removeEntry key rest

/-- Map write: cache[key] = e (overwrite). -/
def insertEntry (key : String) (e : Entry) (s : StoreMap) : StoreMap :=
  (key, e) :: removeEntry key s

/-- failStatus constant (400). -/
def failStatus : Int := 400

/-- successStatus constant (200). -/
def successStatus : Int := 200

/-- contentText constant: the default content type. -/
def contentText : String := "text/plain; charset=utf-8"

/-- minimumAllowedCacheDuration = 2 * time.Second, in nanoseconds. -/
def minimumAllowedCacheDuration : Int := 2000000000

/-- validateCacheDuration from the source: floors the duration. -/
def validateCacheDuration (expir : Int) : Int :=
  if expir ≤ minimumAllowedCacheDuration then minimumAllowedCacheDuration * 2
  else expir

/-- validateStatusCode from the source: non-positive becomes 200. -/
def validateStatusCode (statusCode : Int) : Int :=
  if statusCode ≤ 0 then successStatus else statusCode

/-- validateContentType from the source: empty becomes text/plain. -/
def validateContentType (cType : String) : String :=
  if cType = "" then contentText else cType

/-- memoryStore.Set at wall-clock time `now`: builds the entry with the
normalized fields and Expires = now + validateCacheDuration(expir),
then overwrites the mapping. -/
def storeSet (now : Int) (key : String) (statusCode : Int) (cType : String)
    (body : Bytes) (expir : Int) (s : StoreMap) : StoreMap :=
  insertEntry key
    { StatusCode := validateStatusCode statusCode
      ContentType := validateContentType cType
      Body := body
      Expires := now + validateCacheDuration expir } s

/-- memoryStore.Get at wall-clock time `now`: returns the entry unless it is
stale (time.Now().After(Expires), i.e. now strictly greater), in which case
it removes it and reports a miss. Returns the entry found together with the
store after the call. -/
def storeGet (now : Int) (key : String) (s : StoreMap) : Option Entry × StoreMap :=
  match lookupEntry key s with
  | some v => if now > v.Expires then (none, removeEntry key s) else (some v, s)
  | none => (none, s)

/-- memoryStore.Remove. -/
def storeRemove (key : String) (s : StoreMap) : StoreMap :=
  removeEntry key s

/-- One tick of the GC sweep in startGC, run at wall-clock time `now`:
deletes every entry with now.After(Expires). -/
def gcSweep (now : Int) : StoreMap → StoreMap
  | [] => []
  | (k, e) :: rest =>
      if now > e.Expires then gcSweep now rest else (k, e) :: gcSweep now rest

/-- Digit test for the regex class \d. -/
def isDigit (c : Char) : Bool := '0' ≤ c && c ≤ '9'

/-- Greedy run of digits, as the regex \d+ captures after its first digit. -/
def takeDigits : List Char → List Char
  | [] => []
  | c :: rest => if isDigit c then c :: takeDigits rest else []

/-- Decimal value of a digit list. -/
def natOfDigits (ds : List Char) : Nat :=
  ds.foldl (fun acc c => acc * 10 + (c.toNat - 48)) 0

/-- Attempt of the regexp `maxage=(\d+)` at one position: the literal
"maxage=" followed by at least one digit, capturing the maximal digit run. -/
def matchMaxAgeAt : List Char → Option (List Char)
  | 'm' :: 'a' :: 'x' :: 'a' :: 'g' :: 'e' :: '=' :: d :: tail =>
      if isDigit d then some (d :: takeDigits tail) else none
  | _ => none

/-- Leftmost match of maxAgeExp = regexp.MustCompile of maxage=(\d+):
the capture group of the first position where the pattern matches. -/
def findMaxAgeDigits : List Char → Option (List Char)
  | [] => none
  | c :: rest =>
      match matchMaxAgeAt (c :: rest) with
      | some ds => some ds
      | none => findMaxAgeDigits rest

/-- Largest int64 value, the bound of Go's strconv.Atoi on a 64-bit platform. -/
def maxInt64 : Int := 9223372036854775807

/-- Smallest int64 value. -/
def minInt64 : Int := -9223372036854775808

/-- parseMaxAge from the source: empty header or no match of maxage=(\d+)
or strconv.Atoi failure (out of int64 range; the capture is all digits so no
syntax error is possible) gives -1, otherwise the captured number. -/
def parseMaxAge (header : String) : Int :=
  if header = "" then -1
  else
    match findMaxAgeDigits header.data with
    | some ds =>
        let v : Int := Int.ofNat (natOfDigits ds)
        if v ≤ maxInt64 then v else -1
    | none => -1

/-- All characters are digits (and mirrors that strconv wants at least the
digits it sees; emptiness is checked by the caller). -/
def allDigits : List Char → Bool
  | [] => true
  | c :: rest => isDigit c && allDigits rest

/-- Exact signed decimal parse, Go strconv syntax for base 10: optional
sign then one or more digits, nothing else; none on a syntax error.
The numeric value is exact (range is checked by each caller as Go does). -/
def goParseIntExact (s : String) : Option Int :=
  match s.data with
  | [] => none
  | c :: rest =>
      let signAndDigits : Bool × List Char :=
        if c = '-' then (true, rest)
        else if c = '+' then (false, rest)
        else (false, c :: rest)
      match signAndDigits with
      | (neg, ds) =>
          if ds = [] then none
          else if allDigits ds then
            let v : Int := Int.ofNat (natOfDigits ds)
            some (if neg then -v else v)
          else none

/-- strconv.ParseInt(s, 10, 64) as used through getURLParamInt64: none when
err != nil (syntax error or out of the int64 range), the value otherwise. -/
def goParseInt64 (s : String) : Option Int :=
  match goParseIntExact s with
  | some v => if v < minInt64 ∨ maxInt64 < v then none else some v
  | none => none

/-- strconv.Atoi with the error discarded, as the status-code parameter is
read: 0 on a syntax error, the value clamped to int64 on a range error. -/
def goAtoi (s : String) : Int :=
  match goParseIntExact s with
  | some v => if v > maxInt64 then maxInt64 else if v < minInt64 then minInt64 else v
  | none => 0

/-- An http.Request as the cache code reads it: method, escaped URL path,
decoded query parameters in order, headers in order, and the request body. -/
structure GoRequest where
  Method : String
  EscapedPath : String
  Query : List (String × String)
  Headers : List (String × String)
  Body : Bytes
deriving DecidableEq, Repr

/-- url.Values.Get: first value for the key, empty string when absent. -/
def valuesGet (key : String) : List (String × String) → String
  | [] => ""
  | (k, v) :: rest => if k = key then v else valuesGet key rest

/-- http.Header.Get: first value for the key, empty string when absent
(canonicalization is not modelled; all keys here are used verbatim). -/
def headerGet (key : String) (hs : List (String × String)) : String :=
  valuesGet key hs

/-- getCacheKey from service.go: just the escaped path of the request URL. -/
def getCacheKey (r : GoRequest) : String :=
  r.EscapedPath

/-- getMaxAge from service.go: parseMaxAge of the Cache-Control header. -/
def getMaxAge (r : GoRequest) : Int :=
  parseMaxAge (headerGet "Cache-Control" r.Headers)

/-- Service.Invalidate from service.go: remove the entry under getCacheKey. -/
def serviceInvalidate (r : GoRequest) (s : StoreMap) : StoreMap :=
  storeRemove (getCacheKey r) s

/-- Two's-complement wrap of an Int into the int64 range, for the one place
Go multiplies durations (time.Duration(seconds) * time.Second) and signed
overflow wraps. -/
def wrap64 (x : Int) : Int :=
  (x + 9223372036854775808) % 18446744073709551616 - 9223372036854775808

/-- The observable outcome of one Service.ServeHTTP call: the status code
written, the Content-Type header if set, the body bytes written, and the
store after the call. -/
structure ServeResult where
  Status : Int
  CType : Option String
  RBody : Bytes
  StoreAfter : StoreMap
deriving DecidableEq, Repr

/-- The expiration seconds of the POST branch of Service.ServeHTTP, exactly
as the source computes them: expirationSeconds from the cache_duration
query parameter, replaced by getMaxAge when the parse errs or gives a
non-positive value, replaced by int64(minimumAllowedCacheDuration.Seconds())
= 2 when still non-positive. -/
def codeDurationSeconds (r : GoRequest) : Int :=
  let es1 : Int :=
    match goParseInt64 (valuesGet "cache_duration" r.Query) with
    | some v => if v ≤ 0 then getMaxAge r else v
    | none => getMaxAge r
  if es1 ≤ 0 then 2 else es1

/-- Service.ServeHTTP from service.go (the distributed-protocol server role)
at wall-clock time `now`. Mirrors the source: empty cache_key fails; GET
serves the stored entry or fails; POST reads cache_duration with fallback to
the request's Cache-Control max-age and then to
int64(minimumAllowedCacheDuration.Seconds()) = 2, fails on an empty body,
and otherwise stores the normalized entry and reports success; DELETE
removes and reports success; any other method fails. -/
def serveDistributed (now : Int) (r : GoRequest) (s : StoreMap) : ServeResult :=
  let key := valuesGet "cache_key" r.Query
  if key = "" then ⟨failStatus, none, [], s⟩
  else if r.Method = "GET" then
    match storeGet now key s with
    | (some v, s1) => ⟨v.StatusCode, some v.ContentType, v.Body, s1⟩
    | (none, s1) => ⟨failStatus, none, [], s1⟩
  else if r.Method = "POST" then
    let es2 : Int := codeDurationSeconds r
    if r.Body = [] then ⟨failStatus, none, [], s⟩
    else
      let cacheDuration := validateCacheDuration (wrap64 (es2 * 1000000000))
      let statusCode := validateStatusCode (goAtoi (valuesGet "cache_status_code" r.Query))
      let cType := validateContentType (valuesGet "cache_content_type" r.Query)
      ⟨successStatus, none, [], storeSet now key statusCode cType r.Body cacheDuration s⟩
  else if r.Method = "DELETE" then ⟨successStatus, none, [], storeRemove key s⟩
  else ⟨failStatus, none, [], s⟩

/-- The response of a handler as the recorder captures it. -/
structure GoResponse where
  StatusCode : Int
  ContentType : String
  Body : Bytes
deriving DecidableEq, Repr

/-- Denier from internal/nethttp/denier.go: a pre-request predicate. -/
abbrev Denier := GoRequest → Bool

/-- DefaultDeniers from internal/nethttp/denier.go: deny on a non-empty
Authorization or Proxy-Authenticate header, and deny on must-revalidate,
s-maxage=0, max-age=0 or X-No-Cache headers. -/
def defaultDeniers : List Denier :=
  [fun r =>
      (headerGet "Authorization" r.Headers != "") ||
      (headerGet "Proxy-Authenticate" r.Headers != ""),
   fun r =>
      (headerGet "must-revalidate" r.Headers != "") ||
      (headerGet "s-maxage" r.Headers == "0") ||
      (headerGet "max-age" r.Headers == "0") ||
      (headerGet "X-No-Cache" r.Headers != "")]

/-- One cache-entry operation the nethttp Handler can perform. -/
inductive CacheOp
  | read
  | write
deriving DecidableEq, Repr

/-- Handler.ServeHTTP from internal/nethttp/handler.go, instrumented with
the list of cache operations performed. The handler's internal.Entry (whose
source is not part of the handler file) is abstracted by `cached`:
some response when Entry.Response() reports valid, none otherwise; reading
it is a read, Entry.Reset is a write. If any denier fires the original
handler runs directly with no cache operation; on a valid entry the cached
response is served; on an invalid entry the original handler runs and its
response is persisted unless its body is empty. -/
def handlerServe (deniers : List Denier) (cached : Option GoResponse)
    (origin : GoRequest → GoResponse) (r : GoRequest) :
    GoResponse × List CacheOp :=
  if deniers.any (fun d => d r) then (origin r, [])
  else
    match cached with
    | some res => (res, [CacheOp.read])
    | none =>
        let res := origin r
        if res.Body = [] then (res, [CacheOp.read])
        else (res, [CacheOp.read, CacheOp.write])

/-- Reference definition following the claim's words (not the source), to be
compared with codeDurationSeconds: the cache_duration query parameter if it
parses to a positive value, otherwise the request's own Cache-Control
max-age if positive, otherwise the minimum-allowed-duration in seconds. -/
def specDurationChain (r : GoRequest) : Int :=
  match goParseInt64 (valuesGet "cache_duration" r.Query) with
  | some v =>
      if 0 < v then v
      else if 0 < getMaxAge r then getMaxAge r else 2
  | none => if 0 < getMaxAge r then getMaxAge r else 2

/-- Go map semantics: deleting a key makes lookups of it miss. -/
theorem lookupEntry_removeEntry (key : String) (s : StoreMap) :
    lookupEntry key (removeEntry key s) = none := by
  induction s with
  | nil => rfl
  | cons a s ih =>
      obtain ⟨k, e⟩ := a
      by_cases hk : k = key
      · simpa [removeEntry, hk] using ih
      · simpa [removeEntry, hk, lookupEntry] using ih

/-- A GC sweep never resurrects a deleted key. -/
theorem lookupEntry_gcSweep_removeEntry (key : String) (t : Int) (s : StoreMap) :
    lookupEntry key (gcSweep t (removeEntry key s)) = none := by
  induction s with
  | nil => rfl
  | cons a s ih =>
      obtain ⟨k, e⟩ := a
      by_cases hk : k = key
      · simpa [removeEntry, hk] using ih
      · by_cases ht : t > e.Expires
        · simpa [removeEntry, hk, gcSweep, ht] using ih
        · simpa [removeEntry, hk, gcSweep, ht, lookupEntry] using ih

/-- The source's POST duration chain computes exactly the fallback chain the
spec describes. -/
theorem codeDurationSeconds_eq_spec (r : GoRequest) :
    codeDurationSeconds r = specDurationChain r := by
  unfold codeDurationSeconds specDurationChain
  cases h : goParseInt64 (valuesGet "cache_duration" r.Query) with
  | none => simp only []; split_ifs <;> omega
  | some v => simp only []; split_ifs <;> omega

/-- C2: for every requested expiration duration, a Set stores an entry whose
expiresAt is creationTime plus the effective TTL, where the effective TTL is
2 × minimumAllowedCacheDuration whenever the request is at or below the
threshold (including zero and negative values) and the requested duration
otherwise. -/
theorem c2_effective_ttl (creation : Int) (key : String) (sc : Int)
    (ct : String) (b : Bytes) (T : Int) (s : StoreMap) :
    lookupEntry key (storeSet creation key sc ct b T s) =
      some { StatusCode := validateStatusCode sc
             ContentType := validateContentType ct
             Body := b
             Expires := creation +
               (if T ≤ minimumAllowedCacheDuration
                then 2 * minimumAllowedCacheDuration else T) } := by
  simp only [storeSet, insertEntry, lookupEntry, if_pos rfl,
    validateCacheDuration, Option.some.injEq]
  split_ifs <;> simp [Int.mul_comm]

/-- C8: the stored entry of every Set carries status code 200 whenever the
given status code is non-positive and the given one otherwise, and content
type "text/plain; charset=utf-8" whenever the given content type is empty
and the given one otherwise. -/
theorem c8_stored_normalization (now : Int) (key : String) (sc : Int)
    (ct : String) (b : Bytes) (d : Int) (s : StoreMap) :
    lookupEntry key (storeSet now key sc ct b d s) =
      some { StatusCode := if sc ≤ 0 then 200 else sc
             ContentType := if ct = "" then "text/plain; charset=utf-8" else ct
             Body := b
             Expires := now + validateCacheDuration d } := by
  simp [storeSet, insertEntry, lookupEntry, validateStatusCode,
    validateContentType, successStatus, contentText]

/-- C9: the duration every Set actually uses is strictly above
minimumAllowedCacheDuration, so the stored entry expires strictly later than
its creation time plus the minimum, and validateCacheDuration is
idempotent. -/
theorem c9_duration_floor_invariant (d now : Int) (key : String) (sc : Int)
    (ct : String) (b : Bytes) (s : StoreMap) :
    minimumAllowedCacheDuration < validateCacheDuration d ∧
    validateCacheDuration (validateCacheDuration d) = validateCacheDuration d ∧
    ∃ e, lookupEntry key (storeSet now key sc ct b d s) = some e ∧
      now + minimumAllowedCacheDuration < e.Expires := by
  refine ⟨?_, ?_, ?_⟩
  · unfold validateCacheDuration minimumAllowedCacheDuration
    split_ifs <;> omega
  · unfold validateCacheDuration minimumAllowedCacheDuration
    split_ifs <;> omega
  · refine ⟨{ StatusCode := validateStatusCode sc
              ContentType := validateContentType ct
              Body := b
              Expires := now + validateCacheDuration d },
      by simp [storeSet, insertEntry, lookupEntry], ?_⟩
    have : minimumAllowedCacheDuration < validateCacheDuration d := by
      unfold validateCacheDuration minimumAllowedCacheDuration
      split_ifs <;> omega
    simp only []
    omega

/-- C1 counterexample: the claim's miss condition fails on the code in two
ways. A Set at time 0 with ttl 10s read exactly at creationTime+T (10s) is a
hit, because Get misses only strictly after Expires; and a Set with ttl 1s
(below the minimum) read at 3s — after creationTime+T — is still a hit,
because the stored expiry is creationTime + 2×minimum = 4s, not
creationTime+T. -/
theorem c1_counterexample :
    (storeGet 10000000000 "k" (storeSet 0 "k" 200 "x" [1] 10000000000 [])).1 =
      some { StatusCode := 200, ContentType := "x", Body := [1],
             Expires := 10000000000 } ∧
    (storeGet 3000000000 "k" (storeSet 0 "k" 200 "x" [1] 1000000000 [])).1 =
      some { StatusCode := 200, ContentType := "x", Body := [1],
             Expires := 4000000000 } := by
  constructor <;> rfl

/-- C1 (amended): after Set(key, ttl=T) at creationTime, with effective
expiry creationTime + validateCacheDuration(T), Get returns a hit for every
read at or before the expiry — also after any GC sweep run at a time no
later than the read — and a miss for every read strictly after the expiry,
whether or not a sweep has run, and such a stale read leaves the key absent
from the store. -/
theorem c1_store_expiration_law (creation T now t : Int) (key : String)
    (sc : Int) (ct : String) (b : Bytes) (s : StoreMap) :
    (now ≤ creation + validateCacheDuration T →
      storeGet now key (storeSet creation key sc ct b T s) =
        (some { StatusCode := validateStatusCode sc
                ContentType := validateContentType ct
                Body := b
                Expires := creation + validateCacheDuration T },
         storeSet creation key sc ct b T s)) ∧
    (t ≤ now → now ≤ creation + validateCacheDuration T →
      (storeGet now key (gcSweep t (storeSet creation key sc ct b T s))).1 =
        some { StatusCode := validateStatusCode sc
               ContentType := validateContentType ct
               Body := b
               Expires := creation + validateCacheDuration T }) ∧
    (creation + validateCacheDuration T < now →
      (storeGet now key (storeSet creation key sc ct b T s)).1 = none ∧
      lookupEntry key
        (storeGet now key (storeSet creation key sc ct b T s)).2 = none) ∧
    (creation + validateCacheDuration T < now →
      (storeGet now key (gcSweep t (storeSet creation key sc ct b T s))).1 = none ∧
      lookupEntry key
        (storeGet now key (gcSweep t (storeSet creation key sc ct b T s))).2 = none) := by
  refine ⟨?_, ?_, ?_, ?_⟩
  · intro h
    have hx : ¬ (creation + validateCacheDuration T < now) := not_lt.mpr h
    simp [storeGet, storeSet, insertEntry, lookupEntry, hx]
  · intro ht h
    have hgc : ¬ (creation + validateCacheDuration T < t) :=
      not_lt.mpr (le_trans ht h)
    have hx : ¬ (creation + validateCacheDuration T < now) := not_lt.mpr h
    simp [storeGet, storeSet, insertEntry, gcSweep, lookupEntry, hgc, hx]
  · intro h
    constructor
    · simp [storeGet, storeSet, insertEntry, lookupEntry, h]
    · simp [storeGet, storeSet, insertEntry, lookupEntry, h,
        lookupEntry_removeEntry]
  · intro h
    by_cases hgc : creation + validateCacheDuration T < t
    · have h1 : gcSweep t (storeSet creation key sc ct b T s) =
          gcSweep t (removeEntry key s) := by
        simp [storeSet, insertEntry, gcSweep, hgc]
      rw [h1]
      have h2 := lookupEntry_gcSweep_removeEntry key t s
      simp [storeGet, h2]
    · have h1 : gcSweep t (storeSet creation key sc ct b T s) =
          (key, { StatusCode := validateStatusCode sc
                  ContentType := validateContentType ct
                  Body := b
                  Expires := creation + validateCacheDuration T }) ::
            gcSweep t (removeEntry key s) := by
        simp [storeSet, insertEntry, gcSweep, hgc]
      rw [h1]
      constructor
      · simp [storeGet, lookupEntry, h]
      · simp [storeGet, lookupEntry, h, lookupEntry_removeEntry]

/-- C1 witness: the amended law evaluated at concrete inputs — a read 5s
after a 10s Set hits, and a read 11s after it, following a sweep at 1s,
misses and leaves the key absent. -/
theorem c1_store_expiration_law_witness :
    storeGet 5000000000 "k" (storeSet 0 "k" 201 "ct" [7] 10000000000 []) =
      (some { StatusCode := 201, ContentType := "ct", Body := [7],
              Expires := 10000000000 },
       storeSet 0 "k" 201 "ct" [7] 10000000000 []) ∧
    ((storeGet 11000000000 "k"
        (gcSweep 1000000000 (storeSet 0 "k" 201 "ct" [7] 10000000000 []))).1 = none ∧
      lookupEntry "k"
        (storeGet 11000000000 "k"
          (gcSweep 1000000000 (storeSet 0 "k" 201 "ct" [7] 10000000000 []))).2 = none) :=
  ⟨(c1_store_expiration_law 0 10000000000 5000000000 1000000000 "k" 201 "ct" [7] []).1
      (by decide),
   (c1_store_expiration_law 0 10000000000 11000000000 1000000000 "k" 201 "ct" [7] []).2.2.2
      (by decide)⟩

/-- C3: whenever at least one denier fires for a request, the cached handler
returns the origin handler's response and performs no cache operation —
neither a read nor a write; in particular, with the default deniers, any
request carrying a non-empty Authorization header is denied. -/
theorem c3_denier_short_circuit :
    (∀ (dn : List Denier) (cached : Option GoResponse)
        (origin : GoRequest → GoResponse) (r : GoRequest),
      dn.any (fun d => d r) = true →
      handlerServe dn cached origin r = (origin r, [])) ∧
    (∀ (cached : Option GoResponse) (origin : GoRequest → GoResponse)
        (r : GoRequest),
      headerGet "Authorization" r.Headers ≠ "" →
      handlerServe defaultDeniers cached origin r = (origin r, [])) := by
  constructor
  · intro dn cached origin r h
    simp [handlerServe, h]
  · intro cached origin r h
    have hb : (headerGet "Authorization" r.Headers != "") = true :=
      bne_iff_ne.mpr h
    simp [handlerServe, defaultDeniers, hb]

/-- C3 witness: a request with Authorization "token" is served by the origin
handler with an empty operation trace, even though a valid cached response
exists. -/
theorem c3_denier_short_circuit_witness :
    handlerServe defaultDeniers
        (some { StatusCode := 200, ContentType := "c", Body := [9] })
        (fun _ => { StatusCode := 201, ContentType := "t", Body := [5] })
        { Method := "GET", EscapedPath := "/", Query := [],
          Headers := [("Authorization", "token")], Body := [] } =
      ({ StatusCode := 201, ContentType := "t", Body := [5] }, []) :=
  c3_denier_short_circuit.2
    (some { StatusCode := 200, ContentType := "c", Body := [9] })
    (fun _ => { StatusCode := 201, ContentType := "t", Body := [5] })
    { Method := "GET", EscapedPath := "/", Query := [],
      Headers := [("Authorization", "token")], Body := [] }
    (by decide)

/-- C5 counterexample: two requests that differ in method and in query
string but share the escaped path get the same cache key, refuting the
claim that the key is method + path + canonical query with distinct keys
for distinct methods or queries. -/
theorem c5_counterexample :
    ({ Method := "GET", EscapedPath := "/a", Query := [("x", "1")],
       Headers := [], Body := [] } : GoRequest).Method ≠
      ({ Method := "POST", EscapedPath := "/a", Query := [("y", "2")],
         Headers := [], Body := [] } : GoRequest).Method ∧
    ({ Method := "GET", EscapedPath := "/a", Query := [("x", "1")],
       Headers := [], Body := [] } : GoRequest).Query ≠
      ({ Method := "POST", EscapedPath := "/a", Query := [("y", "2")],
         Headers := [], Body := [] } : GoRequest).Query ∧
    getCacheKey { Method := "GET", EscapedPath := "/a", Query := [("x", "1")],
                  Headers := [], Body := [] } =
      getCacheKey { Method := "POST", EscapedPath := "/a", Query := [("y", "2")],
                    Headers := [], Body := [] } := by
  refine ⟨by decide, by decide, rfl⟩

/-- C5 (amended): the net/http service's cache key is the request's escaped
URL path alone — method and query string do not enter it — so any two
requests with the same escaped path share a key, and Invalidate on one
removes the entry the other maps to. -/
theorem c5_cache_key_path_only (r1 r2 : GoRequest) (s : StoreMap)
    (h : r1.EscapedPath = r2.EscapedPath) :
    getCacheKey r1 = r1.EscapedPath ∧
    getCacheKey r1 = getCacheKey r2 ∧
    lookupEntry (getCacheKey r1) (serviceInvalidate r2 s) = none := by
  refine ⟨rfl, h, ?_⟩
  unfold serviceInvalidate storeRemove getCacheKey
  rw [h]
  exact lookupEntry_removeEntry r2.EscapedPath s

/-- C5 witness: the amended statement at two concrete requests sharing path
"/a" and a one-entry store under that key. -/
theorem c5_cache_key_path_only_witness :
    getCacheKey { Method := "GET", EscapedPath := "/a", Query := [("x", "1")],
                  Headers := [], Body := [] } = "/a" ∧
    getCacheKey { Method := "GET", EscapedPath := "/a", Query := [("x", "1")],
                  Headers := [], Body := [] } =
      getCacheKey { Method := "POST", EscapedPath := "/a", Query := [("y", "2")],
                    Headers := [], Body := [] } ∧
    lookupEntry
        (getCacheKey { Method := "GET", EscapedPath := "/a", Query := [("x", "1")],
                       Headers := [], Body := [] })
        (serviceInvalidate
          { Method := "POST", EscapedPath := "/a", Query := [("y", "2")],
            Headers := [], Body := [] }
          [("/a", { StatusCode := 200, ContentType := "t", Body := [1],
                    Expires := 9000000000 })]) = none :=
  c5_cache_key_path_only
    { Method := "GET", EscapedPath := "/a", Query := [("x", "1")],
      Headers := [], Body := [] }
    { Method := "POST", EscapedPath := "/a", Query := [("y", "2")],
      Headers := [], Body := [] }
    [("/a", { StatusCode := 200, ContentType := "t", Body := [1],
              Expires := 9000000000 })]
    (by decide)

/-- Helper: the POST branch of Service.ServeHTTP with a key and a non-empty
body stores the normalized entry under the code's duration chain and
reports success. -/
theorem serveDistributed_post_success (now : Int) (r : GoRequest) (s : StoreMap)
    (h1 : valuesGet "cache_key" r.Query ≠ "") (h2 : r.Method = "POST")
    (h3 : r.Body ≠ []) :
    serveDistributed now r s =
      { Status := successStatus, CType := none, RBody := [],
        StoreAfter :=
          storeSet now (valuesGet "cache_key" r.Query)
            (validateStatusCode (goAtoi (valuesGet "cache_status_code" r.Query)))
            (validateContentType (valuesGet "cache_content_type" r.Query))
            r.Body
            (validateCacheDuration (wrap64 (codeDurationSeconds r * 1000000000)))
            s } := by
  simp [serveDistributed, h1, h2, h3]

/-- Helper: the POST branch of Service.ServeHTTP with a key but an empty
body fails and leaves the store untouched. -/
theorem serveDistributed_post_emptyBody (now : Int) (r : GoRequest) (s : StoreMap)
    (h1 : valuesGet "cache_key" r.Query ≠ "") (h2 : r.Method = "POST")
    (h3 : r.Body = []) :
    serveDistributed now r s =
      { Status := failStatus, CType := none, RBody := [], StoreAfter := s } := by
  simp [serveDistributed, h1, h2, h3]

/-- C6: the distributed server responds with the fixed failure status and no
body when the cache_key parameter is empty or when the method is none of
GET, POST and DELETE, in both cases leaving the store untouched; and a
DELETE carrying a key always responds with the fixed success status and no
body, with the key absent from the store afterwards. -/
theorem c6_protocol_dispatch :
    (∀ (now : Int) (r : GoRequest) (s : StoreMap),
      valuesGet "cache_key" r.Query = "" →
      serveDistributed now r s =
        { Status := failStatus, CType := none, RBody := [], StoreAfter := s }) ∧
    (∀ (now : Int) (r : GoRequest) (s : StoreMap),
      valuesGet "cache_key" r.Query ≠ "" →
      r.Method ≠ "GET" → r.Method ≠ "POST" → r.Method ≠ "DELETE" →
      serveDistributed now r s =
        { Status := failStatus, CType := none, RBody := [], StoreAfter := s }) ∧
    (∀ (now : Int) (r : GoRequest) (s : StoreMap),
      valuesGet "cache_key" r.Query ≠ "" → r.Method = "DELETE" →
      serveDistributed now r s =
        { Status := successStatus, CType := none, RBody := [],
          StoreAfter := storeRemove (valuesGet "cache_key" r.Query) s } ∧
      lookupEntry (valuesGet "cache_key" r.Query)
        (serveDistributed now r s).StoreAfter = none) := by
  refine ⟨?_, ?_, ?_⟩
  · intro now r s h
    simp [serveDistributed, h]
  · intro now r s h1 h2 h3 h4
    simp [serveDistributed, h1, h2, h3, h4]
  · intro now r s h1 h2
    have he : serveDistributed now r s =
        { Status := successStatus, CType := none, RBody := [],
          StoreAfter := storeRemove (valuesGet "cache_key" r.Query) s } := by
      simp [serveDistributed, h1, h2]
    refine ⟨he, ?_⟩
    rw [he]
    exact lookupEntry_removeEntry _ s

/-- C6 witness: the three dispatch facts at concrete requests — a GET with
no key, a PUT with a key, and a DELETE of a present key. -/
theorem c6_protocol_dispatch_witness :
    serveDistributed 0
        { Method := "GET", EscapedPath := "/", Query := [], Headers := [],
          Body := [] } [] =
      { Status := failStatus, CType := none, RBody := [], StoreAfter := [] } ∧
    serveDistributed 0
        { Method := "PUT", EscapedPath := "/", Query := [("cache_key", "k1")],
          Headers := [], Body := [3] } [] =
      { Status := failStatus, CType := none, RBody := [], StoreAfter := [] } ∧
    (serveDistributed 0
        { Method := "DELETE", EscapedPath := "/", Query := [("cache_key", "k1")],
          Headers := [], Body := [] }
        [("k1", { StatusCode := 200, ContentType := "t", Body := [1],
                  Expires := 9000000000 })] =
      { Status := successStatus, CType := none, RBody := [], StoreAfter := [] } ∧
     lookupEntry "k1"
       (serveDistributed 0
         { Method := "DELETE", EscapedPath := "/", Query := [("cache_key", "k1")],
           Headers := [], Body := [] }
         [("k1", { StatusCode := 200, ContentType := "t", Body := [1],
                   Expires := 9000000000 })]).StoreAfter = none) :=
  ⟨c6_protocol_dispatch.1 0
      { Method := "GET", EscapedPath := "/", Query := [], Headers := [],
        Body := [] } [] (by decide),
   c6_protocol_dispatch.2.1 0
      { Method := "PUT", EscapedPath := "/", Query := [("cache_key", "k1")],
        Headers := [], Body := [3] } [] (by decide) (by decide) (by decide)
      (by decide),
   c6_protocol_dispatch.2.2 0
      { Method := "DELETE", EscapedPath := "/", Query := [("cache_key", "k1")],
        Headers := [], Body := [] }
      [("k1", { StatusCode := 200, ContentType := "t", Body := [1],
                Expires := 9000000000 })] (by decide) (by decide)⟩

/-- C7: a distributed POST with a key and a non-empty body stores its entry
with the duration of the fallback chain — the cache_duration parameter when
it parses to a positive value, otherwise the request's own Cache-Control
max-age when positive, otherwise the minimum-allowed-duration in seconds —
converted to nanoseconds and floored by validateCacheDuration as every Set
argument is; a POST with an empty body responds with the fixed failure
status and stores nothing. -/
theorem c7_post_duration_chain (now : Int) (r : GoRequest) (s : StoreMap)
    (h1 : valuesGet "cache_key" r.Query ≠ "") (h2 : r.Method = "POST") :
    (r.Body = [] →
      serveDistributed now r s =
        { Status := failStatus, CType := none, RBody := [], StoreAfter := s }) ∧
    (r.Body ≠ [] →
      serveDistributed now r s =
        { Status := successStatus, CType := none, RBody := [],
          StoreAfter :=
            storeSet now (valuesGet "cache_key" r.Query)
              (validateStatusCode (goAtoi (valuesGet "cache_status_code" r.Query)))
              (validateContentType (valuesGet "cache_content_type" r.Query))
              r.Body
              (validateCacheDuration (wrap64 (specDurationChain r * 1000000000)))
              s }) := by
  constructor
  · intro h3
    exact serveDistributed_post_emptyBody now r s h1 h2 h3
  · intro h3
    rw [serveDistributed_post_success now r s h1 h2 h3,
      codeDurationSeconds_eq_spec r]

/-- C7 witness: an empty-body POST fails, and a POST whose cache_duration
parameter is the non-positive "-3" falls back to the request's own
Cache-Control maxage of 30 seconds, stored as a 30s expiry. -/
theorem c7_post_duration_chain_witness :
    serveDistributed 0
        { Method := "POST", EscapedPath := "/",
          Query := [("cache_key", "k1"), ("cache_duration", "-3")],
          Headers := [("Cache-Control", "maxage=30")], Body := [] } [] =
      { Status := failStatus, CType := none, RBody := [], StoreAfter := [] } ∧
    serveDistributed 0
        { Method := "POST", EscapedPath := "/",
          Query := [("cache_key", "k1"), ("cache_duration", "-3")],
          Headers := [("Cache-Control", "maxage=30")], Body := [120] } [] =
      { Status := successStatus, CType := none, RBody := [],
        StoreAfter := [("k1",
          { StatusCode := 200, ContentType := "text/plain; charset=utf-8",
            Body := [120], Expires := 30000000000 })] } := by
  constructor
  · exact (c7_post_duration_chain 0
      { Method := "POST", EscapedPath := "/",
        Query := [("cache_key", "k1"), ("cache_duration", "-3")],
        Headers := [("Cache-Control", "maxage=30")], Body := [] } []
      (by decide) (by decide)).1 (by decide)
  · have h := (c7_post_duration_chain 0
      { Method := "POST", EscapedPath := "/",
        Query := [("cache_key", "k1"), ("cache_duration", "-3")],
        Headers := [("Cache-Control", "maxage=30")], Body := [120] } []
      (by decide) (by decide)).2 (by decide)
    rw [h]
    rfl

/-- C10: a distributed POST with a key and a non-empty body whose
cache_status_code parameter is absent or not a number does not fail — the
parse error is discarded, the entry is stored with the normalized default
status code 200, and the response carries the fixed success status. -/
theorem c10_status_parse_error_discarded (now : Int) (r : GoRequest)
    (s : StoreMap) (h1 : valuesGet "cache_key" r.Query ≠ "")
    (h2 : r.Method = "POST") (h3 : r.Body ≠ [])
    (h4 : goParseIntExact (valuesGet "cache_status_code" r.Query) = none) :
    (serveDistributed now r s).Status = successStatus ∧
    ∃ e, lookupEntry (valuesGet "cache_key" r.Query)
        (serveDistributed now r s).StoreAfter = some e ∧
      e.StatusCode = 200 := by
  have he := serveDistributed_post_success now r s h1 h2 h3
  have hz : goAtoi (valuesGet "cache_status_code" r.Query) = 0 := by
    simp [goAtoi, h4]
  refine ⟨by rw [he], ?_⟩
  rw [he]
  simp only [storeSet, insertEntry, lookupEntry, if_pos rfl]
  refine ⟨_, rfl, ?_⟩
  simp [hz, validateStatusCode, successStatus]

/-- C10 witness: a POST carrying cache_status_code "abc" succeeds and stores
status code 200. -/
theorem c10_status_parse_error_discarded_witness :
    (serveDistributed 0
        { Method := "POST", EscapedPath := "/",
          Query := [("cache_key", "k1"), ("cache_status_code", "abc")],
          Headers := [], Body := [7] } []).Status = successStatus ∧
    ∃ e, lookupEntry "k1"
        (serveDistributed 0
          { Method := "POST", EscapedPath := "/",
            Query := [("cache_key", "k1"), ("cache_status_code", "abc")],
            Headers := [], Body := [7] } []).StoreAfter = some e ∧
      e.StatusCode = 200 :=
  c10_status_parse_error_discarded 0
    { Method := "POST", EscapedPath := "/",
      Query := [("cache_key", "k1"), ("cache_status_code", "abc")],
      Headers := [], Body := [7] } []
    (by decide) (by decide) (by decide) (by decide)

/-- C4: the compiled pattern is maxage=(\d+), without the dash of the
Cache-Control directive, so the standard header "max-age=60" yields the
sentinel -1 instead of 60; only the non-standard spelling "maxage=60"
matches, the first numeric match is taken, and empty or token-free headers
yield -1. -/
theorem c4_parse_max_age_dash :
    parseMaxAge "max-age=60" = -1 ∧
    parseMaxAge "maxage=60" = 60 ∧
    parseMaxAge "public, max-age=31536000" = -1 ∧
    parseMaxAge "no-cache, maxage=, maxage=17, maxage=5" = 17 ∧
    parseMaxAge "" = -1 ∧
    parseMaxAge "no-store" = -1 := by
  decide

end Httpcache
